import Mathlib

/-!
Verification of the core signal-classification and alert-deduplication logic
of the proctor-ai-sfu-server repository (src/python-application).

Embedding conventions:
* Python strings (user ids, alert types, dictionary keys, labels) are
  modelled as lists of characters (`Str := List Char`); the f-string key
  construction `f"{user_id}_{alert_type}"` becomes list append with an
  underscore in the middle.
* Python / numpy floating point numbers are modelled as rationals.
  Where numpy can produce NaN (an unguarded `0/0` division in
  `audio_analyzer_optimized.py`), the value is modelled as `Option` of a
  rational, `none` standing for NaN; every comparison with NaN is false,
  matching IEEE semantics used by numpy.
* The mutable dictionary `FaceAnalyzer.last_alert_state` is modelled as a
  function from keys to optional entries; `dict.get(key, default)` becomes
  `Option.getD`, insertion becomes pointwise update, and the bulk delete of
  `cleanup_alert_states` removes every key with the matching prefix.
* `datetime.now().timestamp()` is passed in explicitly as a rational `now`.
-/

namespace ProctorSFU

/-- Python strings are modelled as lists of characters. -/
abbrev Str := List Char

/-- AlertState is one entry of the `FaceAnalyzer.last_alert_state` dictionary
(face_analyzer.py): `{"last_time": <timestamp>, "active": <bool>}`. -/
structure AlertState where
  last_time : ℚ
  active : Bool
deriving DecidableEq, Repr

/-- AlertMap models the `last_alert_state` dictionary: a partial map from
string keys to `AlertState` entries. -/
abbrev AlertMap := Str → Option AlertState

/-- Empty alert map: a freshly constructed `FaceAnalyzer` has
`self.last_alert_state = {}`. -/
def AlertMap.empty : AlertMap := fun _ => none

/-- Dictionary assignment `self.last_alert_state[key] = v`. -/
def AlertMap.update (m : AlertMap) (k : Str) (v : AlertState) : AlertMap :=
  fun k2 => if k2 = k then some v else m k2

/-- Key construction `key = f"{user_id}_{alert_type}"`
(face_analyzer.py line 230). -/
def mkKey (user_id alert_type : Str) : Str := user_id ++ '_' :: alert_type

/-- Cooldown constant `self.ALERT_COOLDOWN = 30` seconds
(face_analyzer.py line 41). -/
def ALERT_COOLDOWN : ℚ := 30

/-- FaceAnalyzer.should_trigger_alert (face_analyzer.py lines 217-256).
Returns the emitted boolean together with the updated alert-state map.
The Python code reads `state = self.last_alert_state.get(key,
{"last_time": 0, "active": False})` and then branches exactly as below. -/
def should_trigger_alert (m : AlertMap) (now : ℚ) (user_id alert_type : Str)
    (condition_active : Bool) : Bool × AlertMap :=
  let key := mkKey user_id alert_type
  let state := (m key).getD { last_time := 0, active := false }
  if condition_active then
    if !state.active then
      (true, m.update key { last_time := now, active := true })
    else if now - state.last_time > ALERT_COOLDOWN then
      (true, m.update key { last_time := now, active := true })
    else
      (false, m)
  else
    (false, m.update key { last_time := now, active := false })

/-- FaceAnalyzer.cleanup_alert_states (face_analyzer.py lines 515-527):
deletes every key of `last_alert_state` that starts with
`f"{user_id}_"`. -/
def cleanup_alert_states (m : AlertMap) (user_id : Str) : AlertMap :=
  fun key => if (user_id ++ ['_']).isPrefixOf key then none else m key

/-- Violation type string "Face not detected" (face_analyzer.py line 309). -/
def vFaceNotDetected : Str := "Face not detected".data

/-- Violation type string "Multiple faces found" (face_analyzer.py line 318). -/
def vMultipleFaces : Str := "Multiple faces found".data

/-- Violation type string "Face partially blocked" (face_analyzer.py line 334). -/
def vFaceBlocked : Str := "Face partially blocked".data

/-- Violation type string "Face mismatch detected" (face_analyzer.py line 355). -/
def vFaceMismatch : Str := "Face mismatch detected".data

/-- Landmark point counts returned by the external landmark extractor for
the primary face: lengths of `face_landmark["left_eye"]` and
`face_landmark["right_eye"]` (face_analyzer.py lines 330-333). -/
structure FaceLandmarks where
  left_eye : ℕ
  right_eye : ℕ
deriving DecidableEq, Repr

/-- Violation-evaluation core of FaceAnalyzer.analyze_frame
(face_analyzer.py lines 307-372), given the outputs of the external
detectors for one tick: the number of detected faces, the primary face's
eye-landmark counts when landmarks were returned (`none` when the
`face_landmarks` list is empty), and the face distance against the
reference encoding when a reference encoding exists and the frame face
could be encoded (`none` otherwise).  Returns the violations list in
append order together with the updated alert-state map.  Mirrors the
branch structure of the source exactly: with zero faces only the
"Face not detected" condition is pushed through the deduplicator; the
other conditions are evaluated only inside the `else` branch. -/
def analyze_tick (m : AlertMap) (now : ℚ) (user_id : Str) (face_count : ℕ)
    (landmarks : Option FaceLandmarks) (face_distance : Option ℚ) :
    List Str × AlertMap :=
  if face_count = 0 then
    let r := should_trigger_alert m now user_id vFaceNotDetected true
    (if r.1 then [vFaceNotDetected] else [], r.2)
  else
    let r0 := should_trigger_alert m now user_id vFaceNotDetected false
    let p1 : List Str × AlertMap :=
      if face_count > 1 then
        let r := should_trigger_alert r0.2 now user_id vMultipleFaces true
        (if r.1 then [vMultipleFaces] else [], r.2)
      else
        let r := should_trigger_alert r0.2 now user_id vMultipleFaces false
        ([], r.2)
    let p2 : List Str × AlertMap :=
      match landmarks with
      | some lm =>
        if lm.left_eye < 6 ∨ lm.right_eye < 6 then
          let r := should_trigger_alert p1.2 now user_id vFaceBlocked true
          (if r.1 then [vFaceBlocked] else [], r.2)
        else
          let r := should_trigger_alert p1.2 now user_id vFaceBlocked false
          ([], r.2)
      | none => ([], p1.2)
    let p3 : List Str × AlertMap :=
      match face_distance with
      | some d =>
        if d > 3/5 then
          let r := should_trigger_alert p2.2 now user_id vFaceMismatch true
          (if r.1 then [vFaceMismatch] else [], r.2)
        else
          let r := should_trigger_alert p2.2 now user_id vFaceMismatch false
          ([], r.2)
      | none => ([], p2.2)
    (p1.1 ++ p2.1 ++ p3.1, p3.2)

/-- Result of decoding one frame, as consumed by the violation logic:
face count, optional primary-face landmarks and optional face distance.
These are the outputs of the external detectors invoked by
FaceAnalyzer.analyze_frame once `cv2.imdecode` succeeds. -/
structure DecodedFrame where
  face_count : ℕ
  landmarks : Option FaceLandmarks
  face_distance : Option ℚ
deriving DecidableEq, Repr

/-- Status string "error" of the result dictionary. -/
def statusError : Str := "error".data

/-- Status string "success" of the result dictionary. -/
def statusSuccess : Str := "success".data

/-- Result dictionary of FaceAnalyzer.analyze_frame, restricted to the
fields the claims speak about. -/
structure AnalysisResult where
  status : Str
  violations : List Str
  processing_time : ℚ
deriving DecidableEq, Repr

/-- FaceAnalyzer.analyze_frame (face_analyzer.py lines 258-410).
The argument `decoded` is `none` when `cv2.imdecode` returned `None`
(undecodable frame bytes, lines 276-287): the function then returns the
error dictionary with an empty violations list and `processing_time` 0
without touching the alert-state map.  Otherwise the violation logic of
`analyze_tick` runs and a success dictionary is produced; `elapsed` is
the externally measured wall-clock processing time of that path. -/
def analyze_frame (m : AlertMap) (now elapsed : ℚ) (user_id : Str)
    (decoded : Option DecodedFrame) : AnalysisResult × AlertMap :=
  match decoded with
  | none =>
    ({ status := statusError, violations := [], processing_time := 0 }, m)
  | some f =>
    let r := analyze_tick m now user_id f.face_count f.landmarks f.face_distance
    ({ status := statusSuccess, violations := r.1, processing_time := elapsed }, r.2)

/-! Calibration (calibration_service.py, calibration_service_optimized.py). -/

/-- Insertion into a sorted list of rationals, used to model the sorting
performed inside `np.percentile`. -/
def insertSorted (x : ℚ) : List ℚ → List ℚ
  | [] => [x]
  | y :: ys => if x ≤ y then x :: y :: ys else y :: insertSorted x ys

/-- Ascending sort of a list of rationals. -/
def sortAsc (xs : List ℚ) : List ℚ := xs.foldr insertSorted []

/-- Percentile with linear interpolation, the default method of
`np.percentile` used at calibration_service.py lines 146-147 and
calibration_service_optimized.py lines 122-123: on the sorted data of
length n, the q-th percentile sits at rank q·(n−1)/100 and is linearly
interpolated between the two neighbouring order statistics.  Empty input
is mapped to 0 here; the caller treats the empty case separately because
numpy raises on it. -/
def percentile (q : ℚ) (xs : List ℚ) : ℚ :=
  let s := sortAsc xs
  let n := s.length
  if n = 0 then 0
  else
    let rank : ℚ := q * (n - 1) / 100
    let i : ℕ := (⌊rank⌋).toNat
    let frac : ℚ := rank - (i : ℚ)
    let a_i := s.getD i 0
    let a_j := s.getD (i + 1) a_i
    a_i + frac * (a_j - a_i)

/-- Threshold record returned by `_calculate_thresholds` and
`_fast_calculate_thresholds`. -/
structure Thresholds where
  low : ℚ
  medium : ℚ
  high : ℚ
  noise_floor : ℚ
  noise_ceiling : ℚ
deriving DecidableEq, Repr

/-- Minimum separation of the full calibration service
(calibration_service.py line 185): `min_separation = 0.01`. -/
def MIN_SEPARATION_FULL : ℚ := 1/100

/-- Minimum separation of the optimized calibration service
(calibration_service_optimized.py line 180): `min_separation = 0.001`. -/
def MIN_SEPARATION_FAST : ℚ := 1/1000

/-- Threshold derivation shared verbatim by
CalibrationService._calculate_thresholds (calibration_service.py lines
167-199) and OptimizedCalibrationService._fast_calculate_thresholds
(calibration_service_optimized.py lines 162-194); the two differ only in
the value of `min_separation`, passed here as a parameter.
`low = noise_floor * 2.0`,
`medium = noise_floor + (noise_ceiling - noise_floor) * 0.6`,
`high = noise_ceiling * 1.5`, followed by the two sequential
minimum-separation adjustments. -/
def calculate_thresholds (min_separation noise_floor noise_ceiling : ℚ) :
    Thresholds :=
  let low_threshold := noise_floor * 2
  let medium_threshold := noise_floor + (noise_ceiling - noise_floor) * (3/5)
  let high_threshold := noise_ceiling * (3/2)
  let medium_adj :=
    if medium_threshold - low_threshold < min_separation then
      low_threshold + min_separation
    else medium_threshold
  let high_adj :=
    if high_threshold - medium_adj < min_separation then
      medium_adj + min_separation
    else high_threshold
  { low := low_threshold, medium := medium_adj, high := high_adj,
    noise_floor := noise_floor, noise_ceiling := noise_ceiling }

/-- Calibration pipeline from the per-window RMS frame energies to the
thresholds: `noise_floor = np.percentile(frame_energies, 10)`,
`noise_ceiling = np.percentile(frame_energies, 90)`
(calibration_service.py lines 136-147), then `_calculate_thresholds`.
On an empty frame-energy list `np.percentile` raises; the generic
`except` of `calibrate` re-raises an untyped `Exception`, so no
thresholds are produced, modelled by `none`.  No other input is
rejected: the source performs no window-count or silence check. -/
def calibrate_from_energies (min_separation : ℚ) (frame_energies : List ℚ) :
    Option Thresholds :=
  match frame_energies with
  | [] => none
  | _ :: _ =>
    some (calculate_thresholds min_separation
      (percentile 10 frame_energies) (percentile 90 frame_energies))

/-! Audio analysis (audio_analyzer.py, audio_analyzer_optimized.py). -/

/-- Volume level strings returned by `_analyze_volume` and
`_fast_analyze_volume`. -/
inductive Level where
  | low
  | medium
  | high
deriving DecidableEq, Repr

/-- Numeric rank of a volume level for the ordering low < medium < high. -/
def levelRank : Level → ℕ
  | .low => 0
  | .medium => 1
  | .high => 2

/-- AudioAnalyzer._analyze_volume (audio_analyzer.py lines 100-111) and
OptimizedAudioAnalyzer._fast_analyze_volume (audio_analyzer_optimized.py
lines 103-113), which are textually identical:
`"low"` if `rms < thresholds["low"]`, else `"medium"` if
`rms < thresholds["medium"]`, else `"high"`.  The `high` threshold is
never consulted. -/
def analyze_volume (rms_energy : ℚ) (t : Thresholds) : Level :=
  if rms_energy < t.low then .low
  else if rms_energy < t.medium then .medium
  else .high

/-- Speech aggregation of AudioAnalyzer._detect_speech (audio_analyzer.py
lines 127-140) and OptimizedAudioAnalyzer._fast_detect_speech
(audio_analyzer_optimized.py lines 129-144): given the per-frame boolean
outputs of `vad.is_speech`, compute
`speech_ratio = speech_frames / total_frames if total_frames > 0 else 0`
and return `speech_ratio > 0.3`. -/
def detect_speech (frame_flags : List Bool) : Bool :=
  let total_frames := frame_flags.length
  let speech_frames := (frame_flags.filter id).length
  let speech_ratio : ℚ :=
    if total_frames > 0 then (speech_frames : ℚ) / (total_frames : ℚ) else 0
  decide (speech_ratio > 3/10)

/-- Numpy scalar division: dividing by zero yields NaN (`none`), never an
exception; otherwise the exact quotient. -/
def npDiv (a b : ℚ) : Option ℚ := if b = 0 then none else some (a / b)

/-- Numpy comparison of a possibly-NaN value against a constant: any
comparison involving NaN is false. -/
def npGtBool : Option ℚ → ℚ → Bool
  | none, _ => false
  | some v, c => decide (v > c)

/-- Feature inputs of
OptimizedAudioAnalyzer._fast_detect_background_sounds
(audio_analyzer_optimized.py lines 150-202): zero crossing rate, the
guarded spectral centroid (the code sets it to 0 when the total band
energy is 0, lines 178-181) and the three band energies, which are sums
of FFT magnitudes and hence non-negative. -/
structure FastSoundFeatures where
  zcr : ℚ
  spectral_centroid : ℚ
  low_energy : ℚ
  mid_energy : ℚ
  high_energy : ℚ
deriving DecidableEq, Repr

/-- Total band energy `total_energy = low_energy + mid_energy +
high_energy` (audio_analyzer_optimized.py line 171). -/
def FastSoundFeatures.total_energy (f : FastSoundFeatures) : ℚ :=
  f.low_energy + f.mid_energy + f.high_energy

/-- Mid-band energy fraction `mid_energy / total_energy` as numpy computes
it (audio_analyzer_optimized.py lines 188 and 196): the division is not
guarded, so a zero total energy yields NaN. -/
def fast_mid_energy_fraction (f : FastSoundFeatures) : Option ℚ :=
  npDiv f.mid_energy f.total_energy

/-- Low-band energy fraction `low_energy / total_energy`
(audio_analyzer_optimized.py line 192), likewise unguarded. -/
def fast_low_energy_fraction (f : FastSoundFeatures) : Option ℚ :=
  npDiv f.low_energy f.total_energy

/-- Typing rule `zcr > 0.1 and 1000 < spectral_centroid < 4000`
(audio_analyzer_optimized.py line 184). -/
def fast_typing_rule (f : FastSoundFeatures) : Bool :=
  decide (f.zcr > 1/10) &&
    (decide (1000 < f.spectral_centroid) && decide (f.spectral_centroid < 4000))

/-- Phone rule `mid_energy / total_energy > 0.7`
(audio_analyzer_optimized.py line 188). -/
def fast_phone_rule (f : FastSoundFeatures) : Bool :=
  npGtBool (fast_mid_energy_fraction f) (7/10)

/-- Door rule `spectral_centroid < 500 and low_energy / total_energy > 0.6`
(audio_analyzer_optimized.py line 192). -/
def fast_door_rule (f : FastSoundFeatures) : Bool :=
  decide (f.spectral_centroid < 500) && npGtBool (fast_low_energy_fraction f) (3/5)

/-- Mechanical rule `zcr > 0.05 and mid_energy / total_energy > 0.5`
(audio_analyzer_optimized.py line 196). -/
def fast_mechanical_rule (f : FastSoundFeatures) : Bool :=
  decide (f.zcr > 1/20) && npGtBool (fast_mid_energy_fraction f) (1/2)

/-- Label "typing". -/
def lblTyping : Str := "typing".data

/-- Label "phone". -/
def lblPhone : Str := "phone".data

/-- Label "door". -/
def lblDoor : Str := "door".data

/-- Label "mechanical". -/
def lblMechanical : Str := "mechanical".data

/-- Label list built by
OptimizedAudioAnalyzer._fast_detect_background_sounds in append order
(audio_analyzer_optimized.py lines 183-197). -/
def fast_detect_background_sounds (f : FastSoundFeatures) : List Str :=
  (if fast_typing_rule f then [lblTyping] else []) ++
  (if fast_phone_rule f then [lblPhone] else []) ++
  (if fast_door_rule f then [lblDoor] else []) ++
  (if fast_mechanical_rule f then [lblMechanical] else [])

/-- AudioAnalyzer._detect_phone_frequencies, final comparison
(audio_analyzer.py line 212): the full analyzer guards its voice-band
ratio explicitly, `(voice_energy / total_energy) > 0.7 if
total_energy > 0 else False`. -/
def phone_frequencies_detected (voice_energy total_energy : ℚ) : Bool :=
  if total_energy > 0 then decide (voice_energy / total_energy > 7/10) else false

/-! Claim C1: the deduplicator state machine. -/

/-- C1: for every alert key, `should_trigger_alert` behaves as the one-step
state machine: a `conditionActive = true` call on an Inactive key (a fresh
key included) emits and sets the state Active with `last_time = now`; a
`true` call on an Active key with `now - last_time ≤ ALERT_COOLDOWN`
suppresses and leaves the map (hence `last_time`) unchanged; a `true` call
on an Active key with `now - last_time > ALERT_COOLDOWN` emits and updates
`last_time` to `now`; a `false` call never emits and sets the state
Inactive regardless of the prior state. -/
theorem C1_alert_dedup_state_machine (m : AlertMap) (now : ℚ) (u t : Str) :
    (((m (mkKey u t)).getD { last_time := 0, active := false }).active = false →
      should_trigger_alert m now u t true =
        (true, m.update (mkKey u t) { last_time := now, active := true })) ∧
    (∀ s, m (mkKey u t) = some s → s.active = true →
      now - s.last_time ≤ ALERT_COOLDOWN →
      should_trigger_alert m now u t true = (false, m)) ∧
    (∀ s, m (mkKey u t) = some s → s.active = true →
      ALERT_COOLDOWN < now - s.last_time →
      should_trigger_alert m now u t true =
        (true, m.update (mkKey u t) { last_time := now, active := true })) ∧
    (should_trigger_alert m now u t false =
      (false, m.update (mkKey u t) { last_time := now, active := false })) := by
  refine ⟨?_, ?_, ?_, ?_⟩
  · intro h
    simp [should_trigger_alert, h]
  · intro s hs ha hc
    simp [should_trigger_alert, hs, ha, not_lt.mpr hc]
  · intro s hs ha hc
    simp [should_trigger_alert, hs, ha, hc]
  · simp [should_trigger_alert]

/-- Alert map holding one Active entry with `last_time = 5` for user "u",
alert type "t"; used to exercise the cooldown branches. -/
def c1map : AlertMap :=
  AlertMap.empty.update (mkKey ['u'] ['t']) { last_time := 5, active := true }

/-- Witness for C1: the four transitions at concrete inputs (fresh key at
time 5; Active key at time 20, within the 30s cooldown; Active key at time
40, after the cooldown; a `false` call). -/
theorem C1_alert_dedup_state_machine_witness :
    should_trigger_alert AlertMap.empty 5 ['u'] ['t'] true =
      (true, AlertMap.empty.update (mkKey ['u'] ['t'])
        { last_time := 5, active := true }) ∧
    should_trigger_alert c1map 20 ['u'] ['t'] true = (false, c1map) ∧
    should_trigger_alert c1map 40 ['u'] ['t'] true =
      (true, c1map.update (mkKey ['u'] ['t']) { last_time := 40, active := true }) ∧
    should_trigger_alert c1map 40 ['u'] ['t'] false =
      (false, c1map.update (mkKey ['u'] ['t']) { last_time := 40, active := false }) := by
  refine ⟨(C1_alert_dedup_state_machine AlertMap.empty 5 ['u'] ['t']).1 (by decide),
    (C1_alert_dedup_state_machine c1map 20 ['u'] ['t']).2.1
      { last_time := 5, active := true } (by decide) rfl (by norm_num [ALERT_COOLDOWN]),
    (C1_alert_dedup_state_machine c1map 40 ['u'] ['t']).2.2.1
      { last_time := 5, active := true } (by decide) rfl (by norm_num [ALERT_COOLDOWN]),
    (C1_alert_dedup_state_machine c1map 40 ['u'] ['t']).2.2.2⟩

/-! Claim C2: cleanup of a subject's alert states. -/

/-- Alert map holding one entry created by `should_trigger_alert` for
subject "a_b" and alert type "t"; its dictionary key is the flat string
"a_b_t". -/
def c2map : AlertMap :=
  AlertMap.empty.update (mkKey ['a', '_', 'b'] ['t']) { last_time := 5, active := true }

/-- Counterexample to C2 as stated: the entry of subject "a_b" (key
"a_b_t", present with `last_time = 5`, Active) is removed by
`cleanup_alert_states` for the different subject "a", because the Python
code deletes every key with string prefix "a_" — so an entry belonging to
another subject is not left unchanged. -/
theorem C2_cleanup_counterexample :
    c2map (mkKey ['a', '_', 'b'] ['t']) = some { last_time := 5, active := true } ∧
    (['a', '_', 'b'] : Str) ≠ ['a'] ∧
    cleanup_alert_states c2map ['a'] (mkKey ['a', '_', 'b'] ['t']) = none := by
  exact ⟨by decide, by decide, by decide⟩

/-- C2 amended: `cleanup_alert_states m u` removes exactly the entries
whose key has the string prefix `u ++ "_"`: afterwards no entry keyed by
`u` (with any alert type) remains, and every key that does not carry that
prefix keeps its exact previous value.  Entries of a different subject are
therefore untouched precisely when that subject's keys do not begin with
`u ++ "_"` (which can fail when subject ids contain underscores, as the
counterexample shows). -/
theorem C2_cleanup_prefix_frame (m : AlertMap) (u : Str) :
    (∀ t, cleanup_alert_states m u (mkKey u t) = none) ∧
    (∀ k, ¬ (u ++ ['_']) <+: k → cleanup_alert_states m u k = m k) := by
  constructor
  · intro t
    have hp : (u ++ ['_']).isPrefixOf (mkKey u t) = true := by
      rw [ List.isPrefixOf_iff_prefix]
      show (u ++ ['_']) <+: (u ++ '_' :: t)
      exact ⟨t, by simp⟩
    simp [cleanup_alert_states, hp]
  · intro k hk
    have hp : (u ++ ['_']).isPrefixOf k = false := by
      rw [Bool.eq_false_iff]
      intro hc
      exact hk (( List.isPrefixOf_iff_prefix).mp hc)
    simp [cleanup_alert_states, hp]

/-- Witness for the amended C2: cleaning up subject "a_b" empties its own
key "a_b_t", and cleaning up the unrelated subject "x" leaves the key
"a_b_t" with its previous value. -/
theorem C2_cleanup_prefix_frame_witness :
    cleanup_alert_states c2map ['a', '_', 'b'] (mkKey ['a', '_', 'b'] ['t']) = none ∧
    cleanup_alert_states c2map ['x'] (mkKey ['a', '_', 'b'] ['t']) =
      c2map (mkKey ['a', '_', 'b'] ['t']) := by
  exact ⟨(C2_cleanup_prefix_frame c2map ['a', '_', 'b']).1 ['t'],
    (C2_cleanup_prefix_frame c2map ['x']).2 _ (by decide)⟩

/-! Claim C6: which conditions are pushed through the deduplicator. -/

/-- Helper: one `should_trigger_alert` call changes the alert map at most
at its own key. -/
theorem should_trigger_alert_frame (m : AlertMap) (now : ℚ) (u t : Str)
    (b : Bool) (k : Str) (hk : k ≠ mkKey u t) :
    (should_trigger_alert m now u t b).2 k = m k := by
  unfold should_trigger_alert
  dsimp only
  split_ifs <;> simp [AlertMap.update, hk]

/-- Alert map holding an Active "Multiple faces found" entry for user "u",
as left behind by an earlier tick that saw two faces at time 0. -/
def c6map : AlertMap :=
  AlertMap.empty.update (mkKey ['u'] vMultipleFaces) { last_time := 0, active := true }

/-- Counterexample to C6 as stated: on a tick with face count 0 the
`multipleFaces` condition is certainly false, yet its track is not reset
to Inactive — after the tick the "Multiple faces found" entry is still
Active with its old trigger time, because the source only pushes
"Face not detected" through the deduplicator in the zero-face branch. -/
theorem C6_no_reset_counterexample :
    c6map (mkKey ['u'] vMultipleFaces) = some { last_time := 0, active := true } ∧
    (analyze_tick c6map 5 ['u'] 0 none none).2 (mkKey ['u'] vMultipleFaces) =
      some { last_time := 0, active := true } := by
  exact ⟨by decide, by decide⟩

/-- C6 amended: a condition is pushed through the deduplicator only inside
the branch that evaluates it.  On a tick with face count 0, only the
"Face not detected" track is touched: the state at every other key — in
particular the `multipleFaces`, `facePartiallyBlocked` and `faceMismatch`
tracks — is left exactly as it was, not reset to Inactive. -/
theorem C6_zero_face_frame (m : AlertMap) (now : ℚ) (u : Str)
    (lm : Option FaceLandmarks) (fd : Option ℚ) (k : Str)
    (hk : k ≠ mkKey u vFaceNotDetected) :
    (analyze_tick m now u 0 lm fd).2 k = m k := by
  unfold analyze_tick
  simp only [if_pos rfl]
  exact should_trigger_alert_frame m now u vFaceNotDetected true k hk

/-- Witness for the amended C6: on the concrete zero-face tick the
"Multiple faces found" key keeps its previous value. -/
theorem C6_zero_face_frame_witness :
    (analyze_tick c6map 5 ['u'] 0 none none).2 (mkKey ['u'] vMultipleFaces) =
      c6map (mkKey ['u'] vMultipleFaces) :=
  C6_zero_face_frame c6map 5 ['u'] none none _ (by decide)

/-! Claim C10: totality of analyze_frame and the decode-failure path. -/

/-- C10: `analyze_frame` always returns a result dictionary — its status is
either "error" or "success" — and on the decode-failure path (undecodable
frame bytes) it returns status "error" with an empty violations list and
leaves the alert-state map entirely unchanged. -/
theorem C10_analyze_frame_total (m : AlertMap) (now elapsed : ℚ) (u : Str)
    (decoded : Option DecodedFrame) :
    ((analyze_frame m now elapsed u none).1.status = statusError ∧
     (analyze_frame m now elapsed u none).1.violations = [] ∧
     (analyze_frame m now elapsed u none).2 = m) ∧
    ((analyze_frame m now elapsed u decoded).1.status = statusError ∨
     (analyze_frame m now elapsed u decoded).1.status = statusSuccess) := by
  refine ⟨⟨rfl, rfl, rfl⟩, ?_⟩
  cases decoded with
  | none => exact Or.inl rfl
  | some f => exact Or.inr rfl

/-! Claims C3, C4, C5: calibration thresholds. -/

/-- Separation invariant of a threshold record, with the minimum
separation `ms`. -/
def wellSeparated (ms : ℚ) (t : Thresholds) : Prop :=
  t.low < t.medium ∧ t.medium < t.high ∧
    ms ≤ t.medium - t.low ∧ ms ≤ t.high - t.medium

/-- Helper: for every positive minimum separation and arbitrary percentile
inputs, the two sequential adjustments of `calculate_thresholds` enforce
the full separation invariant. -/
theorem calculate_thresholds_separated (ms nf nc : ℚ) (h : 0 < ms) :
    wellSeparated ms (calculate_thresholds ms nf nc) := by
  unfold wellSeparated calculate_thresholds
  simp only []
  split_ifs with h1 h2 h2 <;>
    exact ⟨by linarith, by linarith, by linarith, by linarith⟩

/-- C3: for every valid baseline input — at least two non-negative
per-window RMS energies — the thresholds derived from the 10th/90th
percentiles satisfy low < medium < high with both gaps at least the
configured minimum separation, for the full service (0.01) and the
optimized service (0.001) alike. -/
theorem C3_threshold_ordering (frame_energies : List ℚ)
    (_hlen : 2 ≤ frame_energies.length)
    (_hnn : ∀ x ∈ frame_energies, 0 ≤ x) :
    wellSeparated MIN_SEPARATION_FULL
      (calculate_thresholds MIN_SEPARATION_FULL
        (percentile 10 frame_energies) (percentile 90 frame_energies)) ∧
    wellSeparated MIN_SEPARATION_FAST
      (calculate_thresholds MIN_SEPARATION_FAST
        (percentile 10 frame_energies) (percentile 90 frame_energies)) :=
  ⟨calculate_thresholds_separated _ _ _ (by norm_num [MIN_SEPARATION_FULL]),
   calculate_thresholds_separated _ _ _ (by norm_num [MIN_SEPARATION_FAST])⟩

/-- Witness for C3: the baseline [0, 1/10] has two non-negative windows
and its thresholds are well separated in both services. -/
theorem C3_threshold_ordering_witness :
    wellSeparated MIN_SEPARATION_FULL
      (calculate_thresholds MIN_SEPARATION_FULL
        (percentile 10 [0, 1/10]) (percentile 90 [0, 1/10])) ∧
    wellSeparated MIN_SEPARATION_FAST
      (calculate_thresholds MIN_SEPARATION_FAST
        (percentile 10 [0, 1/10]) (percentile 90 [0, 1/10])) :=
  C3_threshold_ordering [0, 1/10] (by norm_num) (by norm_num)

/-- Counterexample to C4 as stated: a silence-only two-window baseline
(noiseCeiling = 0) and a one-window baseline both make calibration
succeed and produce a threshold profile — no typed `DegenerateSignalError`
or `InsufficientDataError` is raised and a profile is produced in both
cases the claim says must fail. -/
theorem C4_no_typed_errors_counterexample :
    calibrate_from_energies MIN_SEPARATION_FULL [0, 0] =
      some { low := 0, medium := 1/100, high := 1/50,
             noise_floor := 0, noise_ceiling := 0 } ∧
    (calibrate_from_energies MIN_SEPARATION_FULL [0, 0]).isSome = true ∧
    calibrate_from_energies MIN_SEPARATION_FULL [5] =
      some { low := 10, medium := 1001/100, high := 501/50,
             noise_floor := 5, noise_ceiling := 5 } := by
  refine ⟨?_, rfl, ?_⟩ <;>
    norm_num [calibrate_from_energies, percentile, sortAsc, insertSorted,
      calculate_thresholds, MIN_SEPARATION_FULL, Thresholds.mk.injEq]

/-- C4 amended: calibration has no typed error cases.  It fails (with an
untyped re-raised exception, modelled as `none`) exactly when the baseline
yields zero RMS windows; every non-empty baseline — a single window and a
silence-only baseline included — produces a threshold profile. -/
theorem C4_amended_untyped_failure (ms : ℚ) (frame_energies : List ℚ) :
    (frame_energies = [] → calibrate_from_energies ms frame_energies = none) ∧
    (frame_energies ≠ [] →
      (calibrate_from_energies ms frame_energies).isSome = true) := by
  cases frame_energies with
  | nil => exact ⟨fun _ => rfl, fun h => absurd rfl h⟩
  | cons a l => exact ⟨fun h => by simp at h, fun _ => rfl⟩

/-- Witness for the amended C4: the empty baseline yields no profile, the
one-window baseline [0] yields one. -/
theorem C4_amended_untyped_failure_witness :
    calibrate_from_energies MIN_SEPARATION_FULL [] = none ∧
    (calibrate_from_energies MIN_SEPARATION_FULL [0]).isSome = true :=
  ⟨(C4_amended_untyped_failure MIN_SEPARATION_FULL []).1 rfl,
   (C4_amended_untyped_failure MIN_SEPARATION_FULL [0]).2 (by decide)⟩

/-- Counterexample to C5 as stated: for noiseFloor = 0.01 and
noiseCeiling = 0.05 the derived thresholds are exactly low = 0.02,
medium = 0.034, high = 0.075 — but a tick with rms = 0.04 classifies as
"high", not "medium", because the classifier returns "medium" only for
rms strictly below the medium threshold and 0.04 ≥ 0.034. -/
theorem C5_scenario_counterexample :
    calculate_thresholds MIN_SEPARATION_FULL (1/100) (1/20) =
      { low := 1/50, medium := 17/500, high := 3/40,
        noise_floor := 1/100, noise_ceiling := 1/20 } ∧
    analyze_volume (1/25)
      (calculate_thresholds MIN_SEPARATION_FULL (1/100) (1/20)) = Level.high ∧
    Level.high ≠ Level.medium := by
  refine ⟨?_, ?_, by decide⟩ <;>
    norm_num [calculate_thresholds, analyze_volume, MIN_SEPARATION_FULL,
      Thresholds.mk.injEq]

/-- C5 amended: the thresholds for noiseFloor = 0.01, noiseCeiling = 0.05
are low = 0.02, medium = 0.034, high = 0.075 as the scenario states, but
rms = 0.04 classifies as "high" (it is at least the medium threshold);
an rms of 0.03, lying in [low, medium), classifies as "medium". -/
theorem C5_scenario_amended :
    calculate_thresholds MIN_SEPARATION_FULL (1/100) (1/20) =
      { low := 1/50, medium := 17/500, high := 3/40,
        noise_floor := 1/100, noise_ceiling := 1/20 } ∧
    analyze_volume (1/25)
      (calculate_thresholds MIN_SEPARATION_FULL (1/100) (1/20)) = Level.high ∧
    analyze_volume (3/100)
      (calculate_thresholds MIN_SEPARATION_FULL (1/100) (1/20)) = Level.medium := by
  refine ⟨?_, ?_, ?_⟩ <;>
    norm_num [calculate_thresholds, analyze_volume, MIN_SEPARATION_FULL,
      Thresholds.mk.injEq]

/-! Claim C7: zero-total-energy behaviour of the sound rules. -/

/-- Zero-energy feature vector: all band energies (and the guarded
spectral centroid and zcr) are 0. -/
def c7zero : FastSoundFeatures :=
  { zcr := 0, spectral_centroid := 0, low_energy := 0, mid_energy := 0,
    high_energy := 0 }

/-- Counterexample to C7 as stated: at total energy 0 the optimized
service's mid-band ratio is an unguarded division by zero — a NaN
(`none`), not the value 0 the claim requires the predicate to use. -/
theorem C7_nan_counterexample :
    c7zero.total_energy = 0 ∧
    fast_mid_energy_fraction c7zero = none ∧
    fast_mid_energy_fraction c7zero ≠ some 0 := by
  refine ⟨?_, ?_, ?_⟩ <;>
    simp [c7zero, FastSoundFeatures.total_energy, fast_mid_energy_fraction, npDiv]

/-- C7 amended: the full analyzer's phone predicate guards
totalEnergy == 0 and returns false; the optimized band-ratio rules do
divide by zero, yielding NaN, but every comparison against NaN is false —
so in both services a zero-total-energy input matches none of the
ratio-based rules (phone, door, mechanical) and no exception is raised,
even though the ratio is NaN rather than 0 in the optimized service. -/
theorem C7_zero_energy_no_ratio_labels (f : FastSoundFeatures)
    (voice_energy : ℚ) (h : f.total_energy = 0) :
    fast_phone_rule f = false ∧
    fast_door_rule f = false ∧
    fast_mechanical_rule f = false ∧
    lblPhone ∉ fast_detect_background_sounds f ∧
    lblDoor ∉ fast_detect_background_sounds f ∧
    lblMechanical ∉ fast_detect_background_sounds f ∧
    phone_frequencies_detected voice_energy 0 = false := by
  have hmid : fast_mid_energy_fraction f = none := by
    simp [fast_mid_energy_fraction, npDiv, h]
  have hlow : fast_low_energy_fraction f = none := by
    simp [fast_low_energy_fraction, npDiv, h]
  have hphone : fast_phone_rule f = false := by
    simp [fast_phone_rule, hmid, npGtBool]
  have hdoor : fast_door_rule f = false := by
    simp [fast_door_rule, hlow, npGtBool]
  have hmech : fast_mechanical_rule f = false := by
    simp [fast_mechanical_rule, hmid, npGtBool]
  have hdet : fast_detect_background_sounds f =
      (if fast_typing_rule f then [lblTyping] else []) := by
    simp [fast_detect_background_sounds, hphone, hdoor, hmech]
  refine ⟨hphone, hdoor, hmech, ?_, ?_, ?_, ?_⟩
  · rw [hdet]; split_ifs <;> decide
  · rw [hdet]; split_ifs <;> decide
  · rw [hdet]; split_ifs <;> decide
  · simp [phone_frequencies_detected]

/-- Witness for the amended C7: the all-zero feature vector has total
energy 0 and matches no ratio rule. -/
theorem C7_zero_energy_no_ratio_labels_witness :
    fast_phone_rule c7zero = false ∧
    fast_door_rule c7zero = false ∧
    fast_mechanical_rule c7zero = false ∧
    lblPhone ∉ fast_detect_background_sounds c7zero ∧
    lblDoor ∉ fast_detect_background_sounds c7zero ∧
    lblMechanical ∉ fast_detect_background_sounds c7zero ∧
    phone_frequencies_detected 0 0 = false :=
  C7_zero_energy_no_ratio_labels c7zero 0
    (by norm_num [c7zero, FastSoundFeatures.total_energy])

/-! Claim C8: speech aggregation. -/

/-- C8: `detect_speech` returns false on an empty frame sequence, and on a
non-empty sequence returns true exactly when the fraction of speech frames
strictly exceeds 0.3 (a fraction of exactly 0.3 yields false). -/
theorem C8_aggregate_speech (frame_flags : List Bool) :
    detect_speech [] = false ∧
    (frame_flags ≠ [] →
      (detect_speech frame_flags = true ↔
        (3 : ℚ)/10 <
          ((frame_flags.filter id).length : ℚ) / (frame_flags.length : ℚ))) := by
  refine ⟨by norm_num [detect_speech], ?_⟩
  intro h
  have hl : 0 < frame_flags.length := List.length_pos.mpr h
  simp [detect_speech, hl]

/-- Witness for C8: the empty sequence yields false; a single speech frame
(fraction 1 > 0.3) yields true. -/
theorem C8_aggregate_speech_witness :
    detect_speech [] = false ∧ detect_speech [true] = true := by
  refine ⟨(C8_aggregate_speech []).1, ?_⟩
  exact ((C8_aggregate_speech [true]).2 (by decide)).mpr (by norm_num)

/-! Claim C9: monotonicity of volume classification. -/

/-- C9: holding the threshold profile fixed, classification is monotone in
the RMS energy under the ordering low < medium < high. -/
theorem C9_volume_monotone (t : Thresholds) (r1 r2 : ℚ) (h : r1 ≤ r2) :
    levelRank (analyze_volume r1 t) ≤ levelRank (analyze_volume r2 t) := by
  unfold analyze_volume
  split_ifs <;> first | decide | (exfalso; linarith)

/-- Witness for C9: a concrete pair of RMS values against the thresholds
derived from noiseFloor = 0.01, noiseCeiling = 0.05. -/
theorem C9_volume_monotone_witness :
    levelRank (analyze_volume (1/100)
      (calculate_thresholds MIN_SEPARATION_FULL (1/100) (1/20))) ≤
    levelRank (analyze_volume (1/25)
      (calculate_thresholds MIN_SEPARATION_FULL (1/100) (1/20))) :=
  C9_volume_monotone _ (1/100) (1/25) (by norm_num)

end ProctorSFU
